import Mathlib

/-!
Shallow embedding of `src/function_app.py` (Ajaynano/sql-function-app).

The repository defines three Azure Functions HTTP handlers:
`http_trigger_v3` (export pipeline: parameter validation, secret resolution,
bounded SELECT, Excel rendering with a pivot sheet, blob upload),
`http_trigger` and `http_trigger2` (greeting endpoints).

External managed services (Key Vault, PostgreSQL, xlsxwriter machinery, Blob
Storage) are modelled as oracles in a `World` record: each oracle either
returns a value or raises, mirroring the Python calls that can throw.
Python values reaching the handlers from query strings and JSON bodies are
modelled by `PyVal` (strings, integers, and JSON numbers as exact rationals);
Python truthiness, `str()` and `int()` are modelled by `pyTruthy`, `pyStr`
and `pyToInt`.
-/

deriving instance DecidableEq for Except

/-- A Python value as it can arrive from a query parameter or a parsed JSON
body: a string, an integer, or a non-integral JSON number (modelled as an
exact rational; the claims under study never depend on binary-float
rounding). -/
inductive PyVal where
  | vStr : String → PyVal
  | vInt : Int → PyVal
  | vNum : Rat → PyVal
deriving DecidableEq, Repr

/-- Python truthiness for the values above: empty string, zero int and zero
number are falsy, everything else truthy. -/
def pyTruthy : PyVal → Bool
  | .vStr s => !(decide (s = ""))
  | .vInt n => !(decide (n = 0))
  | .vNum q => !(decide (q = 0))

/-- Truthiness of an optional value: Python `None` is falsy. -/
def pyTruthyOpt : Option PyVal → Bool
  | none => false
  | some v => pyTruthy v

/-- Rendering of a rational as a fraction text. The handlers only ever test
a number's `str()` for blankness, so the exact digits Python would print are
irrelevant; what the embedding preserves is that the text always contains
the non-whitespace separator character. -/
def ratRepr (q : Rat) : String :=
  toString q.num ++ "/" ++ toString q.den

/-- Models Python `str()` on the values above (for numbers only the
non-blankness of the result matters to the handlers, see `ratRepr`). -/
def pyStr : PyVal → String
  | .vStr s => s
  | .vInt n => toString n
  | .vNum q => ratRepr q

/-- Python `str.strip()` on the underlying characters: leading and trailing
whitespace removed. -/
def trimChars (l : List Char) : List Char :=
  ((l.dropWhile Char.isWhitespace).reverse.dropWhile Char.isWhitespace).reverse

/-- Python `str.strip()`. -/
def pyStrip (s : String) : String :=
  ⟨trimChars s.data⟩

/-- Truncation of a rational toward zero, the behaviour of Python `int()` on
a float such as `2.5` (→ `2`) or `-2.5` (→ `-2`). -/
def ratTrunc (q : Rat) : Int :=
  if q < 0 then q.ceil else q.floor

/-- The digit run of a decimal integer literal: non-empty, digits only. -/
def parseDigits (ds : List Char) : Option Nat :=
  if ds.length > 0 && ds.all Char.isDigit then
    some (ds.foldl (fun acc c => acc * 10 + (c.toNat - 48)) 0)
  else none

/-- Models Python `int(s)` on a string: surrounding whitespace is tolerated,
then an optional sign and a non-empty run of digits; anything else raises
`ValueError` (here: `none`). -/
def parseIntStr (s : String) : Option Int :=
  match trimChars s.data with
  | '-' :: ds => (parseDigits ds).map fun n => -(n : Int)
  | '+' :: ds => (parseDigits ds).map fun n => (n : Int)
  | ds => (parseDigits ds).map fun n => (n : Int)

/-- Models Python `int(v)`: identity on ints, truncation toward zero on
numbers, string parsing on strings; `none` models the raised exception. -/
def pyToInt : PyVal → Option Int
  | .vInt n => some n
  | .vNum q => some (ratTrunc q)
  | .vStr s => parseIntStr s

/-- The fields of a parsed JSON request body that the handlers read via
`req_body.get(...)`: `azure_container_name`, `limit` (for `http_trigger_v3`)
and `name` (for the greeting handlers). An absent field is `none`. -/
structure BodyFields where
  container : Option PyVal
  limit : Option PyVal
  name : Option PyVal
deriving DecidableEq, Repr

/-- An incoming HTTP request: the query parameters the handlers read
(strings when present) and the JSON body; `body = none` models a body that
`req.get_json()` fails to parse (`ValueError`). -/
structure HttpRequest where
  qContainer : Option String
  qLimit : Option String
  qName : Option String
  body : Option BodyFields
deriving DecidableEq, Repr

/-- Lines 29-31 and 147-152: `req.get_json()` with `except ValueError`
treated as an empty dict, so both failure and an absent field yield `None`
from `.get`. -/
def getJsonFields (req : HttpRequest) : Option PyVal × Option PyVal :=
  match req.body with
  | none => (none, none)
  | some b => (b.container, b.limit)

/-- Lines 23-35 of `http_trigger_v3`: read `azure_container_name` and
`limit` from the query string; if either is falsy (absent or empty), parse
the body once and replace each falsy field by the body's value for it. -/
def resolveParams (req : HttpRequest) : Option PyVal × Option PyVal :=
  let c0 := req.qContainer.map PyVal.vStr
  let l0 := req.qLimit.map PyVal.vStr
  if !pyTruthyOpt c0 || !pyTruthyOpt l0 then
    let bf := getJsonFields req
    (if !pyTruthyOpt c0 then bf.1 else c0, if !pyTruthyOpt l0 then bf.2 else l0)
  else
    (c0, l0)

/-- Lines 37-47 of `http_trigger_v3`: validate the resolved parameters.
A falsy or blank container or limit yields the missing-parameter message;
otherwise `int(limit)` is attempted inside `try`: a raised conversion yields
the must-be-an-integer message, a non-positive result returns (from inside
the `try`) the must-be-a-positive-integer message. Errors carry the HTTP
status and body. -/
def validateV3 (req : HttpRequest) : Except (Nat × String) (PyVal × Int) :=
  let p := resolveParams req
  match p.1 with
  | none => .error (400, "Missing or empty required parameter: azure_container_name")
  | some cv =>
    if !pyTruthy cv || decide (pyStrip (pyStr cv) = "") then
      .error (400, "Missing or empty required parameter: azure_container_name")
    else
      match p.2 with
      | none => .error (400, "Missing or empty required parameter: limit")
      | some lv =>
        if !pyTruthy lv || decide (pyStrip (pyStr lv) = "") then
          .error (400, "Missing or empty required parameter: limit")
        else
          match pyToInt lv with
          | none => .error (400, "Parameter \x27limit\x27 must be an integer")
          | some n =>
            if n ≤ 0 then .error (400, "Parameter \x27limit\x27 must be a positive integer")
            else .ok (cv, n)

/-- Ordering used by pandas when it sorts the pivot index: numeric values
compare numerically (int and float interoperate), strings compare
lexicographically. A mixed string/number index makes the Python sort raise;
the cross-constructor cases below totalise the order so the embedding stays
a function (no claim exercises mixed key types). `charsLe` is the code-point
lexicographic comparison Python uses on strings. -/
def charsLe : List Char → List Char → Bool
  | [], _ => true
  | _ :: _, [] => false
  | a :: as, b :: bs =>
    if a.toNat < b.toNat then true
    else if b.toNat < a.toNat then false
    else charsLe as bs

/-- See the comment above `charsLe`: the composite index order. -/
def pyLe : PyVal → PyVal → Bool
  | .vInt m, .vInt n => m ≤ n
  | .vInt m, .vNum q => (m : Rat) ≤ q
  | .vNum p, .vInt n => p ≤ (n : Rat)
  | .vNum p, .vNum q => p ≤ q
  | .vStr s, .vStr t => charsLe s.data t.data
  | .vStr _, _ => true
  | _, .vStr _ => false

/-- Models `pd.pivot_table(df, index=[df.columns[0]], values=[df.columns[1]],
aggfunc=count)` on the first two columns of the fetched frame: rows whose
first-column cell is null are dropped (pandas groupby default), the distinct
remaining keys are sorted ascending by `le`, and each key is paired with the
count of rows having that key and a non-null second-column cell. -/
def pivotTable (le : PyVal → PyVal → Bool) (rows : List (Option PyVal × Option PyVal)) :
    List (PyVal × Nat) :=
  (List.insertionSort (fun a b => le a b = true) (rows.filterMap Prod.fst).dedup).map
    fun k => (k, (rows.filter fun r => decide (r.1 = some k) && r.2.isSome).length)

/-- The result of the bounded SELECT: named, positionally ordered columns
and rows of nullable cells. -/
structure ResultSet where
  cols : List String
  rows : List (List (Option PyVal))
deriving DecidableEq, Repr

/-- One worksheet: a header row of labels and the data rows below it
(`to_excel` writes the header first, then one row per record). -/
structure Sheet where
  header : List String
  data : List (List (Option PyVal))
deriving DecidableEq, Repr

/-- Line 97: `df.to_excel(writer, sheet_name=Data, index=False)` — the
fetched columns and rows verbatim, no synthetic index column. -/
def dataSheet (rs : ResultSet) : Sheet :=
  ⟨rs.cols, rs.rows⟩

/-- The first two cells of a fetched row, as the (key, value) pair the pivot
aggregates; a short row yields null cells. -/
def rowKeyVal (r : List (Option PyVal)) : Option PyVal × Option PyVal :=
  ((r.get? 0).join, (r.get? 1).join)

/-- Lines 99-105: if the frame has at least two columns, the pivot of the
first two is written to the `PivotTable` sheet (counts rendered as integer
cells; the exact Excel header layout of `pivot.to_excel` is abstracted to
the two column labels); otherwise a single-column, single-row sheet carrying
the literal message is written instead. -/
def pivotSheet (rs : ResultSet) : Sheet :=
  if rs.cols.length ≥ 2 then
    ⟨[rs.cols.getD 0 "", rs.cols.getD 1 ""],
      (pivotTable pyLe (rs.rows.map rowKeyVal)).map
        fun kn => [some kn.1, some (PyVal.vInt kn.2)]⟩
  else
    ⟨["Message"], [[some (PyVal.vStr "Not enough columns for pivot table")]]⟩

/-- Lines 95-105: the in-memory workbook, a `Data` sheet followed by a
`PivotTable` sheet. -/
def renderWorkbook (rs : ResultSet) : List (String × Sheet) :=
  [("Data", dataSheet rs), ("PivotTable", pivotSheet rs)]

/-- The environment variables `http_trigger_v3` consults, each `none` when
unset. -/
structure Env where
  keyVaultNameVar : Option String
  blobContainerNameVar : Option String
  blobFileNameVar : Option String
  pgTable : Option String
  pgHost : Option String
  pgPort : Option String
  pgDb : Option String
  pgUser : Option String
  pgPassword : Option String
deriving DecidableEq, Repr

/-- Line 50: `keyVaultName = "https://v1-dev.vault.azure.net/" or
os.environ["KEY_VAULT_NAME"]`. The left operand is a non-empty string
literal, hence truthy, so Python's `or` short-circuits; the environment
lookup (which would raise `KeyError` when the variable is unset, modelled by
`.error`) is never evaluated. -/
def keyVaultName (env : Env) : Except String String :=
  let lit := "https://v1-dev.vault.azure.net/"
  if lit == "" then
    match env.keyVaultNameVar with
    | some s => .ok s
    | none => .error "KeyError: KEY_VAULT_NAME"
  else .ok lit

/-- Python `x or fallback` where `x` is an optional string (`None` and `""`
are falsy): used for the `DB_HOST or os.environ.get(...)` chains of lines
65-69. -/
def pyOrS (v : Option String) (fb : String) : String :=
  match v with
  | some s => if s == "" then fb else s
  | none => fb

/-- The request-scoped configuration assembled on lines 54-70: the blob
connection string exactly as the secret store returned it (line 54 has no
fallback), and the remaining values with their `or`-fallbacks and
environment defaults. -/
structure Config where
  blobConnectionString : Option String
  blobContainerName : PyVal
  blobFileName : String
  table : String
  host : String
  port : Int
  dbname : String
  user : String
  password : String
deriving DecidableEq, Repr

/-- The configuration record of lines 54-70 for a given resolved port: the
blob connection string is the secret's value as-is (line 54 has no
fallback), while host, user and password fall back through Python `or` to
their `PG_*` environment variables. -/
def configOf (container : PyVal) (sBlob sHost sUser sPass : Option String)
    (env : Env) (port : Int) : Config :=
  { blobConnectionString := sBlob
    blobContainerName :=
      if pyTruthy container then container
      else .vStr (env.blobContainerNameVar.getD "dataexport")
    blobFileName := env.blobFileNameVar.getD "output.xlsx"
    table := env.pgTable.getD "test_bulk_insert"
    host := pyOrS sHost (env.pgHost.getD "")
    port := port
    dbname := env.pgDb.getD "survey_request_aj"
    user := pyOrS sUser (env.pgUser.getD "")
    password := pyOrS sPass (env.pgPassword.getD "") }

/-- Lines 54-70: build the configuration from the validated container value,
the four secret values and the environment. `PG_PORT`, when set, goes
through `int()`, whose failure (outside any `try`) is an escaping exception
modelled by `.error`. -/
def buildConfig (container : PyVal) (sBlob sHost sUser sPass : Option String)
    (env : Env) : Except String Config :=
  match env.pgPort with
  | none => .ok (configOf container sBlob sHost sUser sPass env 5432)
  | some s =>
    match parseIntStr s with
    | some n => .ok (configOf container sBlob sHost sUser sPass env n)
    | none => .error ("invalid literal for int(): " ++ s)

/-- Line 83: the bounded SELECT text interpolated from the table name and
the validated limit. -/
def queryText (table : String) (limit : Int) : String :=
  "SELECT * FROM " ++ table ++ " LIMIT " ++ toString limit

/-- The external managed services as oracles: each call either returns a
value (`ok`) or raises (`error`/`some msg`), mirroring the exceptions the
Python calls can throw. `getSecret` is keyed by the secret name, `queryRs`
by the SQL text sent. -/
structure World where
  getSecret : String → Except String (Option String)
  connect : Except String Unit
  queryRs : String → Except String ResultSet
  excelFail : Option String
  uploadFail : Option String

/-- What running a handler on a request produces: an HTTP response it
returned, or an exception that escaped the handler uncaught. -/
inductive Outcome where
  | response (status : Nat) (body : String)
  | uncaught (msg : String)
deriving DecidableEq, Repr

/-- Observable events of one `http_trigger_v3` run: the vault address handed
to `SecretClient` (line 52), whether `psycopg2.connect` succeeded and
whether `conn.close()` ran (lines 75 and 90), the SQL text sent (line 84),
and the workbook uploaded (line 117). -/
structure Trace where
  vaultAddr : Option String := none
  connOpened : Bool := false
  connClosed : Bool := false
  queryStr : Option String := none
  uploadedWb : Option (List (String × Sheet)) := none
deriving DecidableEq, Repr

/-- Lines 18-134: the full `http_trigger_v3` handler. Validation failures
return 400 before any external call. The Key Vault reads (lines 50-57) and
the config assembly (lines 60-70) happen outside any `try`, so their raised
exceptions escape as `Outcome.uncaught`. Inside the outer `try` of line 72:
the connect, fetch, render and upload stages each map their own failure to
an HTTP 500 response, `conn.close()` runs in the `finally` of line 89 on
both fetch outcomes, and success returns the 200 summary. `d` abstracts the
measured duration string. -/
def http_trigger_v3 (req : HttpRequest) (env : Env) (w : World) (d : String) :
    Outcome × Trace :=
  match validateV3 req with
  | .error sm => (.response sm.1 sm.2, {})
  | .ok cl =>
    match keyVaultName env with
    | .error e => (.uncaught e, {})
    | .ok kv =>
      match w.getSecret "SECRET-BLOB-CONN" with
      | .error e => (.uncaught e, { vaultAddr := some kv })
      | .ok sBlob =>
        match w.getSecret "SECRET-DB-HOST" with
        | .error e => (.uncaught e, { vaultAddr := some kv })
        | .ok sHost =>
          match w.getSecret "SECRET-DB-USER" with
          | .error e => (.uncaught e, { vaultAddr := some kv })
          | .ok sUser =>
            match w.getSecret "SECRET-DB-PASS" with
            | .error e => (.uncaught e, { vaultAddr := some kv })
            | .ok sPass =>
              match buildConfig cl.1 sBlob sHost sUser sPass env with
              | .error e => (.uncaught e, { vaultAddr := some kv })
              | .ok cfg =>
                match w.connect with
                | .error e =>
                  (.response 500 ("PostgreSQL connection failed: " ++ e),
                    { vaultAddr := some kv })
                | .ok _ =>
                  match w.queryRs (queryText cfg.table cl.2) with
                  | .error e =>
                    (.response 500 ("Failed to fetch data from PostgreSQL: " ++ e),
                      { vaultAddr := some kv, connOpened := true, connClosed := true,
                        queryStr := some (queryText cfg.table cl.2) })
                  | .ok df =>
                    match w.excelFail with
                    | some e =>
                      (.response 500 ("Failed to generate Excel file: " ++ e),
                        { vaultAddr := some kv, connOpened := true, connClosed := true,
                          queryStr := some (queryText cfg.table cl.2) })
                    | none =>
                      match w.uploadFail with
                      | some e =>
                        (.response 500 ("Failed to upload to Azure Blob Storage: " ++ e),
                          { vaultAddr := some kv, connOpened := true, connClosed := true,
                            queryStr := some (queryText cfg.table cl.2) })
                      | none =>
                        (.response 200
                          ("Excel file with " ++ toString df.rows.length ++
                            " records and pivot table uploaded to blob storage as " ++
                            cfg.blobFileName ++ ". Duration: " ++ d ++ "."),
                          { vaultAddr := some kv, connOpened := true, connClosed := true,
                            queryStr := some (queryText cfg.table cl.2),
                            uploadedWb := some (renderWorkbook df) })

/-- The generic greeting of lines 165-168, parameterised by the duration
string. -/
def genericGreeting (d : String) : String :=
  "This HTTP triggered function executed successfully. Pass a name in the query string or in the request body for a personalized response. Duration: " ++ d ++ "."

/-- Lines 136-170: the `http_trigger` handler. The name comes from the query
string; when falsy there, the body is parsed (`except ValueError: pass`, so
a parse failure keeps the query value) and the body's `name` replaces it.
A truthy final name yields the personalised 200, anything else the generic
200; no path fails. `resolveName` is the name-resolution part
(lines 144-153). -/
def resolveName (req : HttpRequest) : Option PyVal :=
  if !pyTruthyOpt (req.qName.map PyVal.vStr) then
    match req.body with
    | none => req.qName.map PyVal.vStr
    | some b => b.name
  else req.qName.map PyVal.vStr

/-- See the comment above `http_trigger`: the final greeting dispatch of
lines 159-170. -/
def http_trigger (req : HttpRequest) (d : String) : Outcome :=
  match resolveName req with
  | some v =>
    if pyTruthy v then
      .response 200
        ("Hello, " ++ pyStr v ++
          ". This HTTP triggered function executed successfully. Duration: " ++ d ++ ".")
    else .response 200 (genericGreeting d)
  | none => .response 200 (genericGreeting d)

/-- The worked example of the spec: columns `category`,`value` with rows
(a,1),(a,2),(b,3). -/
def sampleResultSet : ResultSet :=
  ⟨["category", "value"],
    [[some (.vStr "a"), some (.vInt 1)],
     [some (.vStr "a"), some (.vInt 2)],
     [some (.vStr "b"), some (.vInt 3)]]⟩

/-- A request carrying both required parameters in the query string. -/
def sampleRequest : HttpRequest :=
  ⟨some "c", some "5", none, none⟩

/-- An environment with every variable unset. -/
def emptyEnv : Env :=
  ⟨none, none, none, none, none, none, none, none, none⟩

/-- A world in which every external call succeeds and the SELECT returns the
worked example. -/
def allOkWorld : World :=
  { getSecret := fun _ => .ok (some "sec")
    connect := .ok ()
    queryRs := fun _ => .ok sampleResultSet
    excelFail := none
    uploadFail := none }

/-- The JSON number 2.5 as an exact rational. -/
def twoPointFive : Rat := ⟨5, 2, by decide, by decide⟩

theorem pivot_map_fst (le : PyVal → PyVal → Bool)
    (rows : List (Option PyVal × Option PyVal)) :
    (pivotTable le rows).map Prod.fst =
      List.insertionSort (fun a b => le a b = true) (rows.filterMap Prod.fst).dedup := by
  simp only [pivotTable, List.map_map]
  have h : (Prod.fst ∘ fun k : PyVal =>
      (k, (rows.filter fun r => decide (r.1 = some k) && r.2.isSome).length)) = id := rfl
  rw [h, List.map_id]

/-- C1: for any transitive total comparison and any fetched rows, the pivot
groups the rows by the distinct (non-null) values of the first column —
its key list is sorted, duplicate-free, and carries exactly the first
column's values — and pairs each key with the count of rows having that key
and a non-null second-column value; on the spec's worked example
(columns category,value; rows (a,1),(a,2),(b,3)) the rendered workbook's
PivotTable sheet is exactly a↦2, b↦1 under a header. -/
theorem c1_pivot_groups_counts_sorted (le : PyVal → PyVal → Bool)
    (htot : ∀ a b, le a b = true ∨ le b a = true)
    (htrans : ∀ a b c, le a b = true → le b c = true → le a c = true)
    (rows : List (Option PyVal × Option PyVal)) :
    ((pivotTable le rows).map Prod.fst).Pairwise (fun a b => le a b = true)
    ∧ ((pivotTable le rows).map Prod.fst).Nodup
    ∧ (∀ k, k ∈ (pivotTable le rows).map Prod.fst ↔ some k ∈ rows.map Prod.fst)
    ∧ (∀ k n, (k, n) ∈ pivotTable le rows →
        n = (rows.filter fun r => decide (r.1 = some k) && r.2.isSome).length)
    ∧ renderWorkbook sampleResultSet =
        [("Data", ⟨["category", "value"], sampleResultSet.rows⟩),
         ("PivotTable", ⟨["category", "value"],
            [[some (.vStr "a"), some (.vInt 2)], [some (.vStr "b"), some (.vInt 1)]]⟩)] := by
  haveI hT : IsTotal PyVal (fun a b => le a b = true) := ⟨htot⟩
  haveI hTr : IsTrans PyVal (fun a b => le a b = true) := ⟨htrans⟩
  refine ⟨?_, ?_, ?_, ?_, by decide⟩
  · rw [pivot_map_fst]
    exact List.sorted_insertionSort _ _
  · rw [pivot_map_fst]
    exact (List.perm_insertionSort _ _).nodup_iff.mpr (List.nodup_dedup _)
  · intro k
    rw [pivot_map_fst, (List.perm_insertionSort _ _).mem_iff]
    simp [List.mem_filterMap, List.mem_map]
  · intro k n h
    simp [pivotTable, List.mem_map] at h
    obtain ⟨k2, hk2, hkeq, hneq⟩ := h
    subst hkeq
    exact hneq.symm

theorem c1_witness :
    ((pivotTable (fun _ _ => true) [(some (.vStr "a"), some (.vInt 1))]).map Prod.fst).Nodup
    ∧ renderWorkbook sampleResultSet =
        [("Data", ⟨["category", "value"], sampleResultSet.rows⟩),
         ("PivotTable", ⟨["category", "value"],
            [[some (.vStr "a"), some (.vInt 2)], [some (.vStr "b"), some (.vInt 1)]]⟩)] :=
  ⟨(c1_pivot_groups_counts_sorted (fun _ _ => true) (fun _ _ => Or.inl rfl)
      (fun _ _ _ _ _ => rfl) [(some (.vStr "a"), some (.vInt 1))]).2.1,
   (c1_pivot_groups_counts_sorted (fun _ _ => true) (fun _ _ => Or.inl rfl)
      (fun _ _ _ _ _ => rfl) []).2.2.2.2⟩

/-- C5: for every ResultSet with fewer than two columns the PivotTable sheet
is the single-column, single-row sheet holding exactly the literal message
"Not enough columns for pivot table", and the PivotTable sheet is present in
the rendered workbook for every ResultSet. -/
theorem c5_pivot_message_sheet (rs : ResultSet) :
    (rs.cols.length < 2 →
      pivotSheet rs = ⟨["Message"], [[some (.vStr "Not enough columns for pivot table")]]⟩)
    ∧ (renderWorkbook rs).map Prod.fst = ["Data", "PivotTable"]
    ∧ ("PivotTable", pivotSheet rs) ∈ renderWorkbook rs := by
  refine ⟨?_, rfl, by simp [renderWorkbook]⟩
  intro h
  unfold pivotSheet
  rw [if_neg (by omega)]

theorem c5_witness :
    pivotSheet ⟨["only"], [[some (.vInt 1)]]⟩
      = ⟨["Message"], [[some (.vStr "Not enough columns for pivot table")]]⟩ :=
  (c5_pivot_message_sheet ⟨["only"], [[some (.vInt 1)]]⟩).1 (by decide)

/-- C4: on every run of `http_trigger_v3`, in every environment and world,
if the database connection was successfully opened then `conn.close()` ran:
the `finally` of the fetch stage closes it on the success and the failure
path alike, so no exit path leaves an opened connection open. -/
theorem c4_connection_closed (req : HttpRequest) (env : Env) (w : World) (d : String)
    (h : (http_trigger_v3 req env w d).2.connOpened = true) :
    (http_trigger_v3 req env w d).2.connClosed = true := by
  have key : ∀ o t, http_trigger_v3 req env w d = (o, t) →
      t.connOpened = true → t.connClosed = true := by
    intro o t hp
    unfold http_trigger_v3 at hp
    repeat' split at hp
    all_goals (injection hp with h1 h2; subst h2; intro hc; simp_all)
  exact key _ _ rfl h

theorem c4_witness :
    (http_trigger_v3 sampleRequest emptyEnv allOkWorld "d").2.connOpened = true
    ∧ (http_trigger_v3 sampleRequest emptyEnv allOkWorld "d").2.connClosed = true :=
  ⟨by decide, c4_connection_closed sampleRequest emptyEnv allOkWorld "d" (by decide)⟩

/-- C6: for each of the two parameters, resolution consults the query value
first — a truthy query value is kept — and whenever the query value is
absent or blank the JSON body's field (whatever it holds) is used in its
place; a body that fails to parse behaves exactly like an empty JSON
object. -/
theorem c6_param_resolution (req : HttpRequest) :
    (∀ b, req.body = some b →
      ((req.qContainer = none ∨ req.qContainer = some "") →
        (resolveParams req).1 = b.container)
      ∧ ((req.qLimit = none ∨ req.qLimit = some "") →
        (resolveParams req).2 = b.limit)
      ∧ (∀ s, req.qContainer = some s → s ≠ "" →
        (resolveParams req).1 = some (PyVal.vStr s))
      ∧ (∀ s, req.qLimit = some s → s ≠ "" →
        (resolveParams req).2 = some (PyVal.vStr s)))
    ∧ resolveParams { req with body := none }
        = resolveParams { req with body := some ⟨none, none, none⟩ } := by
  constructor
  · intro b hb
    refine ⟨?_, ?_, ?_, ?_⟩
    · rintro (hq | hq) <;>
        simp [resolveParams, getJsonFields, hb, hq, pyTruthyOpt, pyTruthy]
    · rintro (hq | hq) <;>
        simp [resolveParams, getJsonFields, hb, hq, pyTruthyOpt, pyTruthy]
    · intro s hq hs
      simp [resolveParams, getJsonFields, hb, hq, pyTruthyOpt, pyTruthy, hs]
      split <;> simp
    · intro s hq hs
      simp [resolveParams, getJsonFields, hb, hq, pyTruthyOpt, pyTruthy, hs]
      split <;> simp
  · simp [resolveParams, getJsonFields]

theorem c6_witness :
    (resolveParams ⟨some "", none, none, some ⟨some (.vStr "bodyC"), some (.vInt 5), none⟩⟩).1
      = some (.vStr "bodyC") :=
  ((c6_param_resolution _).1 ⟨some (.vStr "bodyC"), some (.vInt 5), none⟩ rfl).1 (Or.inr rfl)

/-- C2 counterexample: the integer zero supplied for `limit` through the
JSON body is falsy, so the handler reports the missing-limit message rather
than the must-be-a-positive-integer message the claim requires for a zero
limit in every supply mode. -/
theorem c2_counterexample :
    validateV3 ⟨some "c", none, none, some ⟨none, some (.vInt 0), none⟩⟩
      = .error (400, "Missing or empty required parameter: limit") := by decide

/-- C2 amended: with a valid container, limit validation has exactly the
three 400 sub-cases with their distinct messages — except that a falsy limit
value (the JSON numbers 0 and 0.0, reachable only through the body) is
reported with the missing-limit message, not the must-be-positive one;
via the query string, where values are non-empty strings, the three
sub-cases hold exactly as claimed. -/
theorem c2_limit_validation_amended (req : HttpRequest) (cv : PyVal)
    (hc1 : (resolveParams req).1 = some cv)
    (hc2 : pyTruthy cv = true)
    (hc3 : pyStrip (pyStr cv) ≠ "") :
    ((resolveParams req).2 = none →
      validateV3 req = .error (400, "Missing or empty required parameter: limit"))
    ∧ (∀ lv, (resolveParams req).2 = some lv → pyTruthy lv = false →
      validateV3 req = .error (400, "Missing or empty required parameter: limit"))
    ∧ (∀ lv, (resolveParams req).2 = some lv → pyStrip (pyStr lv) = "" →
      validateV3 req = .error (400, "Missing or empty required parameter: limit"))
    ∧ (∀ lv, (resolveParams req).2 = some lv → pyTruthy lv = true →
      pyStrip (pyStr lv) ≠ "" → pyToInt lv = none →
      validateV3 req = .error (400, "Parameter \x27limit\x27 must be an integer"))
    ∧ (∀ lv n, (resolveParams req).2 = some lv → pyTruthy lv = true →
      pyStrip (pyStr lv) ≠ "" → pyToInt lv = some n → n ≤ 0 →
      validateV3 req = .error (400, "Parameter \x27limit\x27 must be a positive integer"))
    ∧ (∀ lv n, (resolveParams req).2 = some lv → pyTruthy lv = true →
      pyStrip (pyStr lv) ≠ "" → pyToInt lv = some n → 0 < n →
      validateV3 req = .ok (cv, n)) := by
  refine ⟨?_, ?_, ?_, ?_, ?_, ?_⟩
  · intro hl
    simp [validateV3, hc1, hc2, hc3, hl]
  · intro lv hl hlf
    simp [validateV3, hc1, hc2, hc3, hl, hlf]
  · intro lv hl hlb
    simp [validateV3, hc1, hc2, hc3, hl, hlb]
  · intro lv hl hlt hlb hli
    simp [validateV3, hc1, hc2, hc3, hl, hlt, hlb, hli]
  · intro lv n hl hlt hlb hli hn
    simp [validateV3, hc1, hc2, hc3, hl, hlt, hlb, hli, hn]
  · intro lv n hl hlt hlb hli hn
    simp [validateV3, hc1, hc2, hc3, hl, hlt, hlb, hli, hn, not_le.mpr hn]

theorem c2_witness :
    validateV3 ⟨some "c", some "0", none, none⟩
      = .error (400, "Parameter \x27limit\x27 must be a positive integer") :=
  (c2_limit_validation_amended ⟨some "c", some "0", none, none⟩ (.vStr "c")
    (by decide) (by decide) (by decide)).2.2.2.2.1 (.vStr "0") 0
    (by decide) (by decide) (by decide) (by decide) (by decide)

theorem keyVaultName_eq (env : Env) :
    keyVaultName env = .ok "https://v1-dev.vault.azure.net/" := by
  have h : ("https://v1-dev.vault.azure.net/" == "") = false := by decide
  simp [keyVaultName, h]

/-- C8: for every environment, request and world, the address handed to the
secret client is the hard-coded literal: `keyVaultName` returns it whatever
`KEY_VAULT_NAME` holds (the fallback after `or` is dead, since the literal
is truthy), and any run of `http_trigger_v3` either never reaches the
secret stage or records exactly that literal as the vault address — never a
value from the request. -/
theorem c8_vault_address_hardcoded (env : Env) (req : HttpRequest) (w : World) (d : String) :
    keyVaultName env = .ok "https://v1-dev.vault.azure.net/"
    ∧ ((http_trigger_v3 req env w d).2.vaultAddr = none
      ∨ (http_trigger_v3 req env w d).2.vaultAddr = some "https://v1-dev.vault.azure.net/") := by
  refine ⟨keyVaultName_eq env, ?_⟩
  have key : ∀ o t, http_trigger_v3 req env w d = (o, t) →
      t.vaultAddr = none ∨ t.vaultAddr = some "https://v1-dev.vault.azure.net/" := by
    intro o t hp
    unfold http_trigger_v3 at hp
    rw [keyVaultName_eq] at hp
    repeat' split at hp
    all_goals (injection hp with h1 h2; subst h2; simp_all)
  exact key _ _ rfl

/-- C3 counterexample: with valid parameters and a secret store that raises,
the exception escapes `http_trigger_v3` uncaught — the handler returns no
HTTP response at all, contradicting the claim that every managed-service
call is wrapped in a try/except converted to an HTTP error response. -/
theorem c3_counterexample :
    (http_trigger_v3 sampleRequest emptyEnv
        { allOkWorld with getSecret := fun _ => .error "vault unreachable" } "d").1
      = .uncaught "vault unreachable" := by decide

/-- C3 amended: the database connect, the fetch, the Excel rendering and the
blob upload are each wrapped in their own try/except and map their failures
to HTTP 500 responses with stage-specific messages, but the four secret-store
reads (lines 50-57) run outside any try, so a secret-store failure
propagates out of the handler uncaught instead of producing a
configuration-error response. -/
theorem c3_errors_amended (req : HttpRequest) (env : Env) (w : World) (d : String)
    (cv : PyVal) (n : Int) (hv : validateV3 req = .ok (cv, n)) :
    (∀ e, w.getSecret "SECRET-BLOB-CONN" = .error e →
      (http_trigger_v3 req env w d).1 = .uncaught e)
    ∧ (∀ vb vh vu vp cfg,
        w.getSecret "SECRET-BLOB-CONN" = .ok vb →
        w.getSecret "SECRET-DB-HOST" = .ok vh →
        w.getSecret "SECRET-DB-USER" = .ok vu →
        w.getSecret "SECRET-DB-PASS" = .ok vp →
        buildConfig cv vb vh vu vp env = .ok cfg →
        (∀ e, w.connect = .error e →
          (http_trigger_v3 req env w d).1
            = .response 500 ("PostgreSQL connection failed: " ++ e))
        ∧ (∀ e, w.connect = .ok () →
            w.queryRs (queryText cfg.table n) = .error e →
            (http_trigger_v3 req env w d).1
              = .response 500 ("Failed to fetch data from PostgreSQL: " ++ e))
        ∧ (∀ df e, w.connect = .ok () →
            w.queryRs (queryText cfg.table n) = .ok df →
            w.excelFail = some e →
            (http_trigger_v3 req env w d).1
              = .response 500 ("Failed to generate Excel file: " ++ e))
        ∧ (∀ df e, w.connect = .ok () →
            w.queryRs (queryText cfg.table n) = .ok df →
            w.excelFail = none → w.uploadFail = some e →
            (http_trigger_v3 req env w d).1
              = .response 500 ("Failed to upload to Azure Blob Storage: " ++ e))) := by
  constructor
  · intro e he
    simp [http_trigger_v3, hv, keyVaultName_eq, he]
  · intro vb vh vu vp cfg h1 h2 h3 h4 hcfg
    refine ⟨?_, ?_, ?_, ?_⟩
    · intro e he
      simp [http_trigger_v3, hv, keyVaultName_eq, h1, h2, h3, h4, hcfg, he]
    · intro e hc he
      simp [http_trigger_v3, hv, keyVaultName_eq, h1, h2, h3, h4, hcfg, hc, he]
    · intro df e hc hq he
      simp [http_trigger_v3, hv, keyVaultName_eq, h1, h2, h3, h4, hcfg, hc, hq, he]
    · intro df e hc hq hx hu
      simp [http_trigger_v3, hv, keyVaultName_eq, h1, h2, h3, h4, hcfg, hc, hq, hx, hu]

theorem c3_witness :
    (http_trigger_v3 sampleRequest emptyEnv
        { allOkWorld with connect := .error "down" } "d").1
      = .response 500 ("PostgreSQL connection failed: " ++ "down") :=
  ((c3_errors_amended sampleRequest emptyEnv
      { allOkWorld with connect := .error "down" } "d" (.vStr "c") 5 (by decide)).2
    (some "sec") (some "sec") (some "sec") (some "sec") _
    rfl rfl rfl rfl rfl).1 "down" rfl

/-- C7 counterexample: with every `PG_*` and blob-related environment
variable set to "ENV" and the blob-connection secret coming back empty, the
configuration keeps the empty string as the blob connection string — no
environment fallback exists for it (the DB host, read in the same build,
does fall back). -/
theorem c7_counterexample :
    buildConfig (.vStr "c") (some "") (some "") (some "") (some "")
        ⟨none, some "ENV", some "ENV", some "ENV", some "ENV", some "5433",
         some "ENV", some "ENV", some "ENV"⟩
      = .ok ⟨some "", .vStr "c", "ENV", "ENV", "ENV", 5433, "ENV", "ENV", "ENV"⟩ := by decide

/-- C7 amended: of the four resolved credentials only the DB host, user and
password have same-purpose environment fallbacks (`PG_HOST`, `PG_USER`,
`PG_PASSWORD`, applied exactly when the secret value is absent or empty);
the blob connection string is consumed exactly as the secret store returned
it, with no environment fallback. -/
theorem c7_credential_fallbacks_amended (container : PyVal)
    (sBlob sHost sUser sPass : Option String) (env : Env) (cfg : Config)
    (h : buildConfig container sBlob sHost sUser sPass env = .ok cfg) :
    cfg.blobConnectionString = sBlob
    ∧ ((sHost = none ∨ sHost = some "") → cfg.host = env.pgHost.getD "")
    ∧ (∀ s, sHost = some s → s ≠ "" → cfg.host = s)
    ∧ ((sUser = none ∨ sUser = some "") → cfg.user = env.pgUser.getD "")
    ∧ (∀ s, sUser = some s → s ≠ "" → cfg.user = s)
    ∧ ((sPass = none ∨ sPass = some "") → cfg.password = env.pgPassword.getD "")
    ∧ (∀ s, sPass = some s → s ≠ "" → cfg.password = s) := by
  have key : ∀ port, cfg = configOf container sBlob sHost sUser sPass env port →
      cfg.blobConnectionString = sBlob
      ∧ ((sHost = none ∨ sHost = some "") → cfg.host = env.pgHost.getD "")
      ∧ (∀ s, sHost = some s → s ≠ "" → cfg.host = s)
      ∧ ((sUser = none ∨ sUser = some "") → cfg.user = env.pgUser.getD "")
      ∧ (∀ s, sUser = some s → s ≠ "" → cfg.user = s)
      ∧ ((sPass = none ∨ sPass = some "") → cfg.password = env.pgPassword.getD "")
      ∧ (∀ s, sPass = some s → s ≠ "" → cfg.password = s) := by
    intro port hcfg
    subst hcfg
    refine ⟨rfl, ?_, ?_, ?_, ?_, ?_, ?_⟩
    · rintro (hs | hs) <;> simp [configOf, pyOrS, hs]
    · intro s hs hne; simp [configOf, pyOrS, hs, hne]
    · rintro (hs | hs) <;> simp [configOf, pyOrS, hs]
    · intro s hs hne; simp [configOf, pyOrS, hs, hne]
    · rintro (hs | hs) <;> simp [configOf, pyOrS, hs]
    · intro s hs hne; simp [configOf, pyOrS, hs, hne]
  unfold buildConfig at h
  split at h
  · injection h with hc
    exact key _ hc.symm
  · split at h
    · injection h with hc
      exact key _ hc.symm
    · cases h

theorem c7_witness :
    ∃ cfg, buildConfig (.vStr "c") (some "conn") none none none emptyEnv = .ok cfg
      ∧ cfg.blobConnectionString = some "conn" ∧ cfg.host = "" := by
  have h := c7_credential_fallbacks_amended (.vStr "c") (some "conn") none none none emptyEnv
      (configOf (.vStr "c") (some "conn") none none none emptyEnv 5432) rfl
  exact ⟨_, rfl, h.1, h.2.1 (Or.inl rfl)⟩

/-- C9: every request to `/http_trigger` gets a 200 response; a non-empty
query-string name yields the personalised greeting, a truthy body name is
used when the query value is absent or blank, and with no name anywhere the
generic greeting (no personalisation) is returned. -/
theorem c9_greeting (req : HttpRequest) (d : String) :
    (∃ b, http_trigger req d = .response 200 b)
    ∧ (∀ s, req.qName = some s → s ≠ "" →
        http_trigger req d = .response 200
          ("Hello, " ++ s ++
            ". This HTTP triggered function executed successfully. Duration: " ++ d ++ "."))
    ∧ ((req.qName = none ∨ req.qName = some "") → ∀ b v, req.body = some b →
        b.name = some v → pyTruthy v = true →
        http_trigger req d = .response 200
          ("Hello, " ++ pyStr v ++
            ". This HTTP triggered function executed successfully. Duration: " ++ d ++ "."))
    ∧ (req.qName = none → (req.body = none ∨ ∃ b, req.body = some b ∧ b.name = none) →
        http_trigger req d = .response 200 (genericGreeting d)) := by
  refine ⟨?_, ?_, ?_, ?_⟩
  · cases hn : resolveName req with
    | none => exact ⟨genericGreeting d, by simp [http_trigger, hn]⟩
    | some v =>
      by_cases hv : pyTruthy v = true
      · exact ⟨"Hello, " ++ pyStr v ++
          ". This HTTP triggered function executed successfully. Duration: " ++ d ++ ".",
          by simp [http_trigger, hn, hv]⟩
      · exact ⟨genericGreeting d, by simp [http_trigger, hn, hv]⟩
  · intro s hq hs
    have hn : resolveName req = some (.vStr s) := by
      simp [resolveName, hq, pyTruthyOpt, pyTruthy, hs]
    simp [http_trigger, hn, pyTruthy, pyStr, hs]
  · rintro (hq | hq) <;> intro b v hb hbn hv <;>
      (have hn : resolveName req = some v := by
        simp [resolveName, hq, pyTruthyOpt, pyTruthy, hb, hbn]) <;>
      simp [http_trigger, hn, hv]
  · rintro hq (hb | ⟨b, hb, hbn⟩) <;>
      (have hn : resolveName req = none := by
        simp [resolveName, hq, pyTruthyOpt, hb]
        try simp [hbn]) <;>
      simp [http_trigger, hn]

theorem c9_witness :
    http_trigger ⟨none, none, some "Ada", none⟩ "0m 0.00s"
      = .response 200 ("Hello, " ++ "Ada" ++
          ". This HTTP triggered function executed successfully. Duration: " ++
          "0m 0.00s" ++ ".") :=
  (c9_greeting ⟨none, none, some "Ada", none⟩ "0m 0.00s").2.1 "Ada" rfl (by decide)

theorem trimChars_ne_nil (l : List Char) (c : Char) (hc : c ∈ l)
    (hw : c.isWhitespace = false) : trimChars l ≠ [] := by
  intro h
  unfold trimChars at h
  rw [List.reverse_eq_nil_iff, List.dropWhile_eq_nil_iff] at h
  have hcl : c ∈ l.takeWhile Char.isWhitespace ++ l.dropWhile Char.isWhitespace := by
    rw [List.takeWhile_append_dropWhile]
    exact hc
  rcases List.mem_append.mp hcl with h1 | h2
  · rw [List.mem_takeWhile_imp h1] at hw
    cases hw
  · have := h c (List.mem_reverse.mpr h2)
    rw [this] at hw
    cases hw

theorem pyStrip_vNum_ne (q : Rat) : pyStrip (pyStr (.vNum q)) ≠ "" := by
  intro h
  have hdata : trimChars (pyStr (.vNum q)).data = [] := congrArg String.data h
  refine trimChars_ne_nil _ '/' ?_ (by decide) hdata
  show '/' ∈ (toString q.num ++ "/" ++ toString q.den).data
  rw [String.data_append, String.data_append]
  simp

/-- C10: a non-integral limit strictly greater than 1 supplied through the
JSON body is not rejected: `int()` truncates it toward zero, validation
accepts the truncated (positive) value, and the SELECT sent to the database
carries that truncated row limit. -/
theorem c10_fractional_limit (q : Rat) (hq : 1 < q) (_hden : q.den ≠ 1) :
    pyToInt (.vNum q) = some (ratTrunc q)
    ∧ 0 < ratTrunc q
    ∧ validateV3 ⟨some "c", none, none, some ⟨none, some (.vNum q), none⟩⟩
        = .ok (.vStr "c", ratTrunc q)
    ∧ (http_trigger_v3 ⟨some "c", none, none, some ⟨none, some (.vNum q), none⟩⟩
          emptyEnv allOkWorld "d").2.queryStr
        = some ("SELECT * FROM test_bulk_insert LIMIT " ++ toString (ratTrunc q)) := by
  have hq0 : q ≠ 0 := by positivity
  have hpos : 0 < ratTrunc q := by
    unfold ratTrunc
    rw [if_neg (by push_neg; linarith)]
    have h1 : (1 : Int) ≤ q.floor := Rat.le_floor.mpr (by push_cast; linarith)
    omega
  have hlim : (resolveParams ⟨some "c", none, none,
      some ⟨none, some (.vNum q), none⟩⟩).2 = some (.vNum q) := by
    simp [resolveParams, getJsonFields, pyTruthyOpt, pyTruthy]
  have hval : validateV3 ⟨some "c", none, none, some ⟨none, some (.vNum q), none⟩⟩
      = .ok (.vStr "c", ratTrunc q) := by
    have hcv : (resolveParams ⟨some "c", none, none,
        some ⟨none, some (.vNum q), none⟩⟩).1 = some (.vStr "c") := by
      simp [resolveParams, getJsonFields, pyTruthyOpt, pyTruthy]
    have hcs : pyStrip (pyStr (PyVal.vStr "c")) ≠ "" := by decide
    simp [validateV3, hcv, hlim, pyTruthy, hq0, hcs, pyStrip_vNum_ne q, pyToInt,
      not_le.mpr hpos]
  refine ⟨rfl, hpos, hval, ?_⟩
  simp [http_trigger_v3, hval, keyVaultName_eq, allOkWorld, emptyEnv, buildConfig,
    configOf, queryText]

theorem c10_witness :
    validateV3 ⟨some "c", none, none, some ⟨none, some (.vNum twoPointFive), none⟩⟩
      = .ok (.vStr "c", 2) :=
  ((c10_fractional_limit twoPointFive (by decide) (by decide)).2.2.1).trans (by decide)
